import Mathlib

/-!
Verification of the Spriteworld-fork collision/overlap engine
(`spriteworld/sprite.py`, `spriteworld/abstractsprite.py`,
`spriteworld/utils.py`).

Numbers are modelled exactly: the Python floats become rationals (ℚ), so an
apply/revert pair `p + m - m` restores `p` exactly, and calls into the
geometry libraries (shapely, matplotlib, numpy) are modelled by their exact
real semantics.  The canonical shape table `constants.SHAPES` is not among
the sources; the shapes are modelled from the spec: a circle is an ideal
disk of radius `prop`, a square is axis-aligned with half side `h`
(side = scale), and a triangle is given by its three vertices in the index
order the source relies on (0 = apex, 1 = bottom-left, 2 = bottom-right).
Square-root comparisons `sqrt q ≤ r` are expressed by the equivalent exact
test `0 ≤ r ∧ q ≤ r * r` (the arguments `q` are sums of squares).
-/

abbrev V2 := ℚ × ℚ

/-- Cardinal motion directions ("up", "down", "left", "right" in the source). -/
inductive Dir
  | up
  | down
  | left
  | right
deriving DecidableEq, Repr

/-- Translation of `utils.opposite`. -/
def opposite : Dir → Dir
  | .up => .down
  | .down => .up
  | .left => .right
  | .right => .left

/-- The resolver epsilon literal `1e-5` used throughout the source. -/
def eps : ℚ := 1 / 100000

/-- Translation of `utils.get_motion_direction`; `none` models the fatal
`exit("unexpected direction")` on a zero or diagonal motion vector. -/
def get_motion_direction (m : V2) : Option Dir :=
  if m.1 = 0 ∧ 0 < m.2 then some .up
  else if m.2 = 0 ∧ 0 < m.1 then some .right
  else if m.1 = 0 ∧ m.2 < 0 then some .down
  else if m.2 = 0 ∧ m.1 < 0 then some .left
  else none

/-- Exact semantics of the float comparison `sqrt q ≤ r` for `0 ≤ q`. -/
def sqrtLe (q r : ℚ) : Bool :=
  decide (0 ≤ r ∧ q ≤ r * r)

/-- Squared Euclidean distance between two points. -/
def dist2 (p q : V2) : ℚ :=
  (p.1 - q.1) * (p.1 - q.1) + (p.2 - q.2) * (p.2 - q.2)

/-!  ## The square fragment

An axis-aligned square sprite (shape "square" at angle 0): position and half
side.  Its polygon bounds are `(x - h, y - h, x + h, y + h)`, matching
`AbstractSprite.bounds` for the canonical square scaled to side `2 * h`.
-/

structure Sq where
  x : ℚ
  y : ℚ
  h : ℚ
deriving DecidableEq, Repr

namespace Sq

/-- bounds[0]: leftmost x of the square's polygon. -/
def x0 (s : Sq) : ℚ := s.x - s.h

/-- bounds[2]: rightmost x. -/
def x1 (s : Sq) : ℚ := s.x + s.h

/-- bounds[1]: bottom y. -/
def y0 (s : Sq) : ℚ := s.y - s.h

/-- bounds[3]: top y. -/
def y1 (s : Sq) : ℚ := s.y + s.h

/-- In-place `self._position += motion`. -/
def translate (s : Sq) (m : V2) : Sq :=
  { s with x := s.x + m.1, y := s.y + m.2 }

end Sq

/-- Modelled from the spec: `Sprite.check_collision` is shapely
`Polygon.intersects`, which for two axis-aligned squares is closed AABB
intersection (touching boundaries count as intersecting). -/
def check_collision_sq (s o : Sq) : Bool :=
  decide (s.x0 ≤ o.x1 ∧ o.x0 ≤ s.x1 ∧ s.y0 ≤ o.y1 ∧ o.y0 ≤ s.y1)

/-- Translation of `AbstractSprite._handle_square_square` (Collision
Snapper, square/square): align the facing bounding-box edges exactly. -/
def handle_square_square (s o : Sq) : Dir → Sq
  | .down => { s with y := s.y - (s.y0 - o.y1) }
  | .up => { s with y := s.y + (o.y0 - s.y1) }
  | .right => { s with x := s.x + (o.x0 - s.x1) }
  | .left => { s with x := s.x - (s.x0 - o.x1) }

/-- Translation of `AbstractSprite._square_square_overlap` (Overlap
Resolver, square/square): separate by `1e-5` past the facing edges. -/
def square_square_overlap (s o : Sq) : Dir → Sq
  | .down => if o.y1 ≥ s.y0 then { s with y := s.y + (o.y1 - s.y0 + eps) } else s
  | .up => if s.y1 ≥ o.y0 then { s with y := s.y - (s.y1 - o.y0 + eps) } else s
  | .right => if s.x1 ≥ o.x0 then { s with x := s.x - (s.x1 - o.x0 + eps) } else s
  | .left => if o.x1 ≥ s.x0 then { s with x := s.x + (o.x1 - s.x0 + eps) } else s

/-- Translation of `utils.square_square_position` (position of `s` relative
to `o`), preserving the source's append order left, right, down, up. -/
def square_square_position (s o : Sq) : List Dir :=
  (if s.x ≤ o.x0 then [Dir.left] else []) ++
  (if s.x ≥ o.x1 then [Dir.right] else []) ++
  (if s.y ≤ o.y0 then [Dir.down] else []) ++
  (if s.y ≥ o.y1 then [Dir.up] else [])

/-- Translation of `AbstractSprite.square_square_distance`. -/
def square_square_distance (s o : Sq) : Dir → ℚ
  | .down => s.y0 - o.y1
  | .up => o.y0 - s.y1
  | .right => o.x0 - s.x1
  | .left => s.x0 - o.x1

/-- Translation of `Sprite.detect_collision` for two squares: the source
speculatively translates `self`, calls `check_collision`, and reverts;
over ℚ this equals testing the translated square (see also the general
state-passing embedding below). -/
def detect_collision_sq (s o : Sq) (m : V2) : Bool :=
  check_collision_sq (s.translate m) o

/-- Translation of `Sprite.avoid_overlapping` with `resolve = True` for two
squares: test `check_collision`, and if overlapping run the resolver. -/
def avoid_overlapping_sq (s o : Sq) (d : Dir) : Sq :=
  if check_collision_sq s o then square_square_overlap s o d else s

/-- Translation of `AbstractSprite.offsets` composed with the `np.clip`
frame clamp at the end of `Sprite.move` (`np.clip a lo hi` is
`min (max a lo) hi`). -/
def clamp_frame_sq (s : Sq) : Sq :=
  { s with
    x := min (max s.x |s.x0 - s.x|) (1 - |s.x1 - s.x|),
    y := min (max s.y |s.y0 - s.y|) (1 - |s.y1 - s.y|) }

/-- Index of the first minimum of a rational list (`np.argmin`). -/
def argmin_first (l : List ℚ) : Nat :=
  (l.foldl
    (fun (st : Nat × Nat × Option ℚ) v =>
      match st with
      | (_, cur, none) => (cur, cur + 1, some v)
      | (best, cur, some bv) =>
          if v < bv then (cur, cur + 1, some v) else (best, cur + 1, some bv))
    (0, 0, none)).1

/-- Read sprite `i` of the world (Python object access through the shared
list; indices are always in range in the modelled runs). -/
def getSq (w : List Sq) (i : Nat) : Sq :=
  w.getD i ⟨0, 0, 0⟩

/-- Write back sprite `i` of the world (in-place mutation of the object). -/
def setW (w : List Sq) (i : Nat) (s : Sq) : List Sq :=
  w.set i s

/-- Translation of `Sprite.move` for a world of square sprites.  Sprites are
identified by their index into `w`; `others` is the list of indices the
source passes as the `others` list (`none` models `others is None`).  The
source's recursion strictly shrinks the `others` list, so any `fuel`
exceeding its length is enough; `none` from fuel exhaustion never occurs in
such runs.  `none` otherwise models the fatal `exit` inside
`get_motion_direction`. -/
def move_sq : Nat → List Sq → Nat → V2 → Bool → Option (List Nat) → Option (List Sq)
  | 0, _, _, _, _, _ => none
  | fuel + 1, w, i, motion, keep, others =>
    let finish : List Sq → Option (List Sq) := fun w1 =>
      some (if keep then setW w1 i (clamp_frame_sq (getSq w1 i)) else w1)
    match others with
    | none => finish (setW w i ((getSq w i).translate motion))
    | some os =>
      match get_motion_direction motion with
      | none => none
      | some dir =>
        let carried := os.filter fun j => detect_collision_sq (getSq w i) (getSq w j) motion
        match carried with
        | [] => finish (setW w i ((getSq w i).translate motion))
        | _ :: _ =>
          let dists := carried.map fun j => square_square_distance (getSq w i) (getSq w j) dir
          let k := argmin_first dists
          let cs := carried.getD k 0
          let rest := carried.eraseIdx k
          let wA := setW w i (handle_square_square (getSq w i) (getSq w cs) dir)
          let positions := square_square_position (getSq wA i) (getSq wA cs)
          let stepB : Option (List Sq) :=
            if dir ∈ positions.map opposite then
              let wB1 := setW wA i ((getSq wA i).translate motion)
              Option.bind (move_sq fuel wB1 cs motion keep (some (os.filter fun j => j ≠ cs)))
                fun wB2 => some (setW wB2 i (avoid_overlapping_sq (getSq wB2 i) (getSq wB2 cs) dir))
            else some (setW wA i ((getSq wA i).translate motion))
          let looped : Option (List Sq) :=
            rest.foldl
              (fun acc j => Option.bind acc fun wL =>
                if check_collision_sq (getSq wL i) (getSq wL j) then
                  Option.bind (move_sq fuel wL j motion keep (some (os.filter fun q => q ≠ j)))
                    fun wL2 => some (setW wL2 i (avoid_overlapping_sq (getSq wL2 i) (getSq wL2 j) dir))
                else some wL)
              stepB
          Option.bind looped finish

/-!  ## Direction-indexed helpers for the snapper statements -/

/-- Overlap of the two squares' extents along the axis orthogonal to the
direction of motion. -/
def orth_overlap (s o : Sq) : Dir → Prop
  | .up => s.x0 ≤ o.x1 ∧ o.x0 ≤ s.x1
  | .down => s.x0 ≤ o.x1 ∧ o.x0 ≤ s.x1
  | .left => s.y0 ≤ o.y1 ∧ o.y0 ≤ s.y1
  | .right => s.y0 ≤ o.y1 ∧ o.y0 ≤ s.y1

/-- Signed gap between the two facing bounding-box edges for a direction. -/
def facing_gap (s o : Sq) : Dir → ℚ
  | .down => s.y0 - o.y1
  | .up => o.y0 - s.y1
  | .right => o.x0 - s.x1
  | .left => s.x0 - o.x1

/-- The mover's coordinate orthogonal to the direction. -/
def orth_coord (s : Sq) : Dir → ℚ
  | .down => s.x
  | .up => s.x
  | .left => s.y
  | .right => s.y

/-!  ## The general body model

A sprite with one of the three shape kinds: an ideal disk of radius `r`
(`prop` = r), an axis-aligned square of half side `h` (`prop` = 2h), or a
triangle given by its three centered vertices in the source's index order
(0 = apex, 1 = bottom-left, 2 = bottom-right).  `bounds` is
`AbstractSprite.bounds`, the axis-aligned bounding box of the polygon.
-/

inductive ShapeData
  | circle (r : ℚ)
  | square (h : ℚ)
  | triangle (v0 v1 v2 : V2)
deriving DecidableEq, Repr

structure Sprite where
  pos : V2
  shape : ShapeData
deriving DecidableEq, Repr

/-- Axis-aligned bounding box (minx, miny, maxx, maxy). -/
structure B4 where
  x0 : ℚ
  y0 : ℚ
  x1 : ℚ
  y1 : ℚ
deriving DecidableEq, Repr

/-- Translation of `AbstractSprite.bounds` for each modelled shape. -/
def Sprite.bounds : Sprite → B4
  | ⟨p, .circle r⟩ => ⟨p.1 - r, p.2 - r, p.1 + r, p.2 + r⟩
  | ⟨p, .square h⟩ => ⟨p.1 - h, p.2 - h, p.1 + h, p.2 + h⟩
  | ⟨p, .triangle v0 v1 v2⟩ =>
      ⟨p.1 + min (min v0.1 v1.1) v2.1, p.2 + min (min v0.2 v1.2) v2.2,
       p.1 + max (max v0.1 v1.1) v2.1, p.2 + max (max v0.2 v1.2) v2.2⟩

/-- Translation of `AbstractSprite.offsets`:
`(|bounds01 - position|, |bounds23 - position|)`. -/
def offsets (s : Sprite) : V2 × V2 :=
  ((|s.bounds.x0 - s.pos.1|, |s.bounds.y0 - s.pos.2|),
   (|s.bounds.x1 - s.pos.1|, |s.bounds.y1 - s.pos.2|))

/-- Translation of the `keep_in_frame` clamp of `Sprite.move`:
`np.clip(position, 0 + bottom_left, 1 - top_right)` where
`np.clip a lo hi = min (max a lo) hi`. -/
def clamp_frame (s : Sprite) : Sprite :=
  { s with pos := (min (max s.pos.1 (offsets s).1.1) (1 - (offsets s).2.1),
                   min (max s.pos.2 (offsets s).1.2) (1 - (offsets s).2.2)) }

/-- Geometric well-formedness: nonnegative radius / half side; a triangle's
centered vertex box contains the origin (true of the canonical shapes, whose
centered paths surround the body's position). -/
def WellFormed : Sprite → Prop
  | ⟨_, .circle r⟩ => 0 ≤ r
  | ⟨_, .square h⟩ => 0 ≤ h
  | ⟨_, .triangle v0 v1 v2⟩ =>
      min (min v0.1 v1.1) v2.1 ≤ 0 ∧ 0 ≤ max (max v0.1 v1.1) v2.1 ∧
      min (min v0.2 v1.2) v2.2 ≤ 0 ∧ 0 ≤ max (max v0.2 v1.2) v2.2

/-!  ## Overlap predicates (`utils.py`) -/

/-- Elementwise dot product of two 2-vectors. -/
def dotV (a b : V2) : ℚ := a.1 * b.1 + a.2 * b.2

/-- Vector difference. -/
def subV (a b : V2) : V2 := (a.1 - b.1, a.2 - b.2)

/-- Translation of `utils.circle_circle`:
`norm(pos1 - pos2) <= rad1 + rad2`. -/
def circle_circle (p1 p2 : V2) (r1 r2 : ℚ) : Bool :=
  sqrtLe (dist2 p1 p2) (r1 + r2)

/-- Translation of `utils.square_circle`. -/
def square_circle (cpos spos : V2) (rad side : ℚ) : Bool :=
  let dx := |cpos.1 - spos.1|
  let dy := |cpos.2 - spos.2|
  if dx > side / 2 + rad then false
  else if dy > side / 2 + rad then false
  else if dx ≤ side / 2 ∨ dy ≤ side / 2 then true
  else sqrtLe ((dx - side / 2) * (dx - side / 2) + (dy - side / 2) * (dy - side / 2)) rad

/-- Translation of `utils.triangle_circle`, including the numpy row
filtering (`k > 0`, then `k/lens < lens`, i.e. `k < len²`). -/
def triangle_circle (t0 t1 t2 cpos : V2) (rad : ℚ) : Bool :=
  if sqrtLe (dist2 t0 cpos) rad then true
  else if sqrtLe (dist2 t1 cpos) rad then true
  else if sqrtLe (dist2 t2 cpos) rad then true
  else
    let a := ((t1.1 - t0.1) * (cpos.1 - t0.1), (t1.2 - t0.2) * (cpos.2 - t0.2))
    let b := ((t2.1 - t1.1) * (cpos.1 - t1.1), (t2.2 - t1.2) * (cpos.2 - t1.2))
    let c := ((t0.1 - t2.1) * (cpos.1 - t2.1), (t0.2 - t2.2) * (cpos.2 - t2.2))
    if a.1 ≥ a.2 ∧ b.1 ≥ b.2 ∧ c.1 ≥ c.2 then true
    else
      let rows : List (V2 × V2) :=
        [(subV cpos t0, subV t1 t0), (subV cpos t1, subV t2 t1), (subV cpos t2, subV t0 t2)]
      let kpos := rows.filter fun r => decide (0 < dotV r.1 r.2)
      if kpos = [] then false
      else
        let near := kpos.filter fun r => decide (dotV r.1 r.2 < dotV r.2 r.2)
        if near = [] then false
        else near.any fun r =>
          sqrtLe (dotV r.1 r.1 - dotV r.1 r.2 * dotV r.1 r.2 / dotV r.2 r.2) rad

/-- Translation of `utils.computeCode` (Cohen-Sutherland region code). -/
def computeCode (x y : ℚ) (b : B4) : Nat :=
  let code := 0
  let code := if x < b.x0 then code ||| 1 else if x > b.x1 then code ||| 2 else code
  if y < b.y0 then code ||| 4 else if y > b.y1 then code ||| 8 else code

/-- Translation of the `utils.cohenSutherlandClip` loop.  Each iteration
replaces the selected out-of-region endpoint by a point of the segment on
the clip boundary, so the loop terminates after a handful of iterations;
`csFuel` below is a safe bound and the fuel case is unreachable on the
runs proved about. -/
def cohenSutherlandClip : Nat → ℚ → ℚ → ℚ → ℚ → B4 → Bool
  | 0, _, _, _, _, _ => false
  | fuel + 1, x1, y1, x2, y2, b =>
    let code1 := computeCode x1 y1 b
    let code2 := computeCode x2 y2 b
    if code1 = 0 ∧ code2 = 0 then true
    else if code1 &&& code2 ≠ 0 then false
    else
      let code_out := if code1 ≠ 0 then code1 else code2
      let xy : V2 :=
        if code_out &&& 8 ≠ 0 then (x1 + (x2 - x1) * (b.y1 - y1) / (y2 - y1), b.y1)
        else if code_out &&& 4 ≠ 0 then (x1 + (x2 - x1) * (b.y0 - y1) / (y2 - y1), b.y0)
        else if code_out &&& 2 ≠ 0 then (b.x1, y1 + (y2 - y1) * (b.x1 - x1) / (x2 - x1))
        else if code_out &&& 1 ≠ 0 then (b.x0, y1 + (y2 - y1) * (b.x0 - x1) / (x2 - x1))
        else (1, 1)
      if code_out = code1 then cohenSutherlandClip fuel xy.1 xy.2 x2 y2 b
      else cohenSutherlandClip fuel x1 y1 xy.1 xy.2 b

/-- Iteration bound for the Cohen-Sutherland loop. -/
def csFuel : Nat := 16

/-- Translation of `utils.triangle_square`: clip each triangle edge against
the square's bounds, accepting on the first surviving segment. -/
def triangle_square (t0 t1 t2 : V2) (b : B4) : Bool :=
  let c1 := cohenSutherlandClip csFuel t0.1 t0.2 t1.1 t1.2 b
  if c1 then c1
  else
    let c2 := cohenSutherlandClip csFuel t0.1 t0.2 t2.1 t2.2 b
    if c2 then c2 else cohenSutherlandClip csFuel t1.1 t1.2 t2.1 t2.2 b

/-- Determinant of the 3x3 matrix with rows `(a, 1)`, `(b, 1)`, `(c, 1)`
(twice the signed area, as in `utils.CheckTriWinding`/`TriTri2D`). -/
def det3 (a b c : V2) : ℚ :=
  a.1 * (b.2 - c.2) - a.2 * (b.1 - c.1) + (b.1 * c.2 - b.2 * c.1)

/-- Translation of `utils.CheckTriWinding` with `allowReversed = True`
inlined (every call site in the sources passes `True`, so the
wrong-winding error branch is dead): swap vertices 1 and 2 when the
winding is clockwise. -/
def checkTriWinding (t : V2 × V2 × V2) : V2 × V2 × V2 :=
  if det3 t.1 t.2.1 t.2.2 < 0 then (t.1, t.2.2, t.2.1) else t

/-- The source's `chkEdge`: the stacked 3x3 determinant is negative. -/
def chkEdge (a b p : V2) : Bool := decide (det3 a b p < 0)

/-- Translation of `utils.TriTri2D` (separating-edge test; edge order per
`np.roll`: rows (0,1), (2,0), (1,2)). -/
def TriTri2D (t1 t2 : V2 × V2 × V2) : Bool :=
  let s1 := checkTriWinding t1
  let s2 := checkTriWinding t2
  let sep : V2 × V2 × V2 → V2 × V2 × V2 → Bool := fun u v =>
    (chkEdge u.1 u.2.1 v.1 && chkEdge u.1 u.2.1 v.2.1 && chkEdge u.1 u.2.1 v.2.2) ||
    (chkEdge u.2.2 u.1 v.1 && chkEdge u.2.2 u.1 v.2.1 && chkEdge u.2.2 u.1 v.2.2) ||
    (chkEdge u.2.1 u.2.2 v.1 && chkEdge u.2.1 u.2.2 v.2.1 && chkEdge u.2.1 u.2.2 v.2.2)
  if sep s1 s2 then false else if sep s2 s1 then false else true

/-!  ## The general collision interface of `Sprite` -/

/-- Translation of `Sprite._geometrical_properties` output: the
characteristic size.  For a circle `sqrt(area/pi)` is the radius; for a
square `sqrt(area)` is the side `2 * h`.  For a triangle the source leaves
`prop = None` and never consults it on the embedded code paths; `0` is a
placeholder. -/
def Sprite.prop : Sprite → ℚ
  | ⟨_, .circle r⟩ => r
  | ⟨_, .square h⟩ => 2 * h
  | ⟨_, .triangle _ _ _⟩ => 0

/-- In-place `self._position += motion`. -/
def Sprite.translate (s : Sprite) (m : V2) : Sprite :=
  { s with pos := s.pos + m }

/-- Closed AABB intersection of two bounding boxes. -/
def boxesIntersectB (a b : B4) : Bool :=
  decide (a.x0 ≤ b.x1 ∧ b.x0 ≤ a.x1 ∧ a.y0 ≤ b.y1 ∧ b.y0 ≤ a.y1)

/-- Squared distance from a point to a closed segment. -/
def segDist2 (p a b : V2) : ℚ :=
  let ab := subV b a
  let len2 := dotV ab ab
  if len2 = 0 then dist2 p a
  else
    let t := min (max (dotV (subV p a) ab / len2) 0) 1
    dist2 p (a.1 + t * ab.1, a.2 + t * ab.2)

/-- Closed point-in-triangle test (consistent signs of the three edge
determinants, either orientation). -/
def pointInTri (p t0 t1 t2 : V2) : Bool :=
  let d1 := det3 t0 t1 p
  let d2 := det3 t1 t2 p
  let d3 := det3 t2 t0 p
  (decide (0 ≤ d1) && decide (0 ≤ d2) && decide (0 ≤ d3)) ||
  (decide (d1 ≤ 0) && decide (d2 ≤ 0) && decide (d3 ≤ 0))

/-- Exact closed intersection of a disk and a triangle. -/
def diskTri (c : V2) (r : ℚ) (t0 t1 t2 : V2) : Bool :=
  decide (0 ≤ r) &&
  (pointInTri c t0 t1 t2 || sqrtLe (segDist2 c t0 t1) r ||
   sqrtLe (segDist2 c t1 t2) r || sqrtLe (segDist2 c t2 t0) r)

/-- Exact closed intersection of a disk and an axis-aligned square. -/
def diskBox (c : V2) (r : ℚ) (q : V2) (h : ℚ) : Bool :=
  let dx := max (|c.1 - q.1| - h) 0
  let dy := max (|c.2 - q.2| - h) 0
  decide (0 ≤ h) && sqrtLe (dx * dx + dy * dy) r

/-- Projection extent (min, max) of a vertex list onto an axis. -/
def projMinMax (ax : V2) (pts : List V2) : ℚ × ℚ :=
  match pts with
  | [] => (0, 0)
  | p :: ps =>
      ps.foldl (fun (mm : ℚ × ℚ) q => (min mm.1 (dotV ax q), max mm.2 (dotV ax q)))
        (dotV ax p, dotV ax p)

/-- Outward edge normals of a polygon given by its cyclic vertex list. -/
def edgeNormals (pts : List V2) : List V2 :=
  match pts with
  | [] => []
  | p :: _ => (pts.zip (pts.drop 1 ++ [p])).map fun e => (-(e.2.2 - e.1.2), e.2.1 - e.1.1)

/-- Exact closed intersection of two convex polygons by the separating-axis
criterion over both edge-normal sets. -/
def convexIntersect (P Q : List V2) : Bool :=
  (edgeNormals P ++ edgeNormals Q).all fun ax =>
    let a := projMinMax ax P
    let b := projMinMax ax Q
    decide (a.1 ≤ b.2) && decide (b.1 ≤ a.2)

/-- Corner list of an axis-aligned square. -/
def sqCorners (p : V2) (h : ℚ) : List V2 :=
  [(p.1 - h, p.2 - h), (p.1 + h, p.2 - h), (p.1 + h, p.2 + h), (p.1 - h, p.2 + h)]

/-- Modelled from the spec: `Sprite.check_collision` is
`self.polygon.intersects(other.polygon)` (shapely).  For the modelled
shapes this is exact closed intersection: circles are ideal disks, squares
are axis-aligned boxes, and polygon pairs use the separating-axis
criterion; touching boundaries count as intersecting. -/
def check_collision (s o : Sprite) : Bool :=
  match s.shape, o.shape with
  | .circle r1, .circle r2 => sqrtLe (dist2 s.pos o.pos) (r1 + r2)
  | .circle r, .square h => diskBox s.pos r o.pos h
  | .square h, .circle r => diskBox o.pos r s.pos h
  | .square _, .square _ => boxesIntersectB s.bounds o.bounds
  | .circle r, .triangle v0 v1 v2 => diskTri s.pos r (o.pos + v0) (o.pos + v1) (o.pos + v2)
  | .triangle v0 v1 v2, .circle r => diskTri o.pos r (s.pos + v0) (s.pos + v1) (s.pos + v2)
  | .square h, .triangle v0 v1 v2 =>
      convexIntersect (sqCorners s.pos h) [o.pos + v0, o.pos + v1, o.pos + v2]
  | .triangle v0 v1 v2, .square h =>
      convexIntersect [s.pos + v0, s.pos + v1, s.pos + v2] (sqCorners o.pos h)
  | .triangle v0 v1 v2, .triangle u0 u1 u2 =>
      convexIntersect [s.pos + v0, s.pos + v1, s.pos + v2] [o.pos + u0, o.pos + u1, o.pos + u2]

/-- The extra triangle/triangle acceptance condition (`condition2`) of
`Sprite.detect_collision`: `p1`, `p2` are the mover's lower vertex heights
before the speculative translation, `p3`, `p4` after it. -/
def tri_tri_extra (s o : Sprite) (m : V2) (d : Dir) : Bool :=
  match s.shape, o.shape with
  | .triangle _ v1 v2, .triangle u0 u1 u2 =>
      let p1 := (s.pos + v1).2
      let p2 := (s.pos + v2).2
      let sv1 := s.pos + m + v1
      let sv2 := s.pos + m + v2
      let p3 := sv1.2
      let p4 := sv2.2
      let ov0 := o.pos + u0
      let ov1 := o.pos + u1
      let ov2 := o.pos + u2
      match d with
      | .down =>
          let c := if sv2.1 < ov0.1 ∧ sv2.1 ≥ ov1.1 then
              decide (ov1.2 ≤ p1 ∧ ov1.2 ≥ p3) else false
          if sv1.1 > ov0.1 ∧ sv1.1 ≤ ov2.1 then
            decide (ov2.2 ≤ p2 ∧ ov2.2 ≥ p4) else c
      | .up =>
          let c := if sv2.1 < ov0.1 ∧ sv2.1 ≥ ov1.1 then
              decide (ov1.2 ≤ p3 ∧ ov1.2 ≥ p1) else false
          if sv1.1 > ov0.1 ∧ sv1.1 ≤ ov2.1 then
            decide (ov2.2 ≤ p4 ∧ ov2.2 ≥ p2) else c
      | .left => false
      | .right => false
  | _, _ => false

/-- Translation of `Sprite.detect_collision`, in state-passing form: the
result is the collision flag together with the two sprites as the call
leaves them.  The square and triangle mover branches perform the source's
in-place `+= motion` / `-= motion` pair; the circle branches evaluate pure
expressions. -/
def detect_collision_run (s o : Sprite) (m : V2) (d : Dir) : Bool × Sprite × Sprite :=
  match s.shape, o.shape with
  | .circle r, .circle r2 => (circle_circle (s.pos + m) o.pos r r2, s, o)
  | .circle r, .square _ => (square_circle (s.pos + m) o.pos r o.prop, s, o)
  | .circle r, .triangle v0 v1 v2 =>
      (triangle_circle (o.pos + v0) (o.pos + v1) (o.pos + v2) (s.pos + m) r, s, o)
  | .square _, .circle r => (square_circle o.pos (s.pos + m) r s.prop, s, o)
  | .square _, .square _ =>
      let s1 := s.translate m
      let col := check_collision s1 o
      (col, { s1 with pos := s1.pos - m }, o)
  | .square _, .triangle v0 v1 v2 =>
      let s1 := s.translate m
      let col := triangle_square (o.pos + v0) (o.pos + v1) (o.pos + v2) s1.bounds
      (col, { s1 with pos := s1.pos - m }, o)
  | .triangle v0 v1 v2, .circle r =>
      let s1 := s.translate m
      let col := triangle_circle (s1.pos + v0) (s1.pos + v1) (s1.pos + v2) o.pos r
      (col, { s1 with pos := s1.pos - m }, o)
  | .triangle v0 v1 v2, .square _ =>
      let s1 := s.translate m
      let col := triangle_square (s1.pos + v0) (s1.pos + v1) (s1.pos + v2) o.bounds
      (col, { s1 with pos := s1.pos - m }, o)
  | .triangle v0 v1 v2, .triangle u0 u1 u2 =>
      let s1 := s.translate m
      let col := TriTri2D (s1.pos + v0, s1.pos + v1, s1.pos + v2)
        (o.pos + u0, o.pos + u1, o.pos + u2)
      (col || tri_tri_extra s o m d, { s1 with pos := s1.pos - m }, o)

/-- The collision flag of `Sprite.detect_collision`. -/
def detect_collision (s o : Sprite) (m : V2) (d : Dir) : Bool :=
  (detect_collision_run s o m d).1

/-- The spec-side predicate of section 4.2/4.6: the overlap predicate
appropriate to the ordered shape pair, applied with the mover's position
translated by the motion and the other body unchanged. -/
def overlap_pred_at (s o : Sprite) (m : V2) : Bool :=
  match s.shape, o.shape with
  | .circle r, .circle r2 => circle_circle (s.pos + m) o.pos r r2
  | .circle r, .square _ => square_circle (s.pos + m) o.pos r o.prop
  | .circle r, .triangle v0 v1 v2 =>
      triangle_circle (o.pos + v0) (o.pos + v1) (o.pos + v2) (s.pos + m) r
  | .square _, .circle r => square_circle o.pos (s.pos + m) r s.prop
  | .square _, .square _ => check_collision (s.translate m) o
  | .square _, .triangle v0 v1 v2 =>
      triangle_square (o.pos + v0) (o.pos + v1) (o.pos + v2) (s.translate m).bounds
  | .triangle v0 v1 v2, .circle r =>
      triangle_circle ((s.translate m).pos + v0) ((s.translate m).pos + v1)
        ((s.translate m).pos + v2) o.pos r
  | .triangle v0 v1 v2, .square _ =>
      triangle_square ((s.translate m).pos + v0) ((s.translate m).pos + v1)
        ((s.translate m).pos + v2) o.bounds
  | .triangle v0 v1 v2, .triangle u0 u1 u2 =>
      TriTri2D ((s.translate m).pos + v0, (s.translate m).pos + v1, (s.translate m).pos + v2)
        (o.pos + u0, o.pos + u1, o.pos + u2)

/-!  ## Circle/circle snapper and resolver

Modelled from the spec with circles as ideal disks.  The square roots that
shapely computes (the center distance `d`, the half-chord `w` of a
line/disk intersection) are not rational, so they are supplied as
parameters; every theorem using them carries the defining equations as
certified side conditions.
-/

/-- Translation of `AbstractSprite._handle_circle_circle` (Collision
Snapper, circle/circle).  `line_distance` is the segment between the two
centers; `p1`/`p2` are its intersections with the two circle contours,
and the mover is shifted by their difference along the direction's axis.
When the segment is degenerate (`d = 0`, coincident centers) or stops short
of a contour (`d < r`), the shapely intersection is empty and the uncaught
attribute access `p1.y` raises AttributeError — modelled by `none`. -/
def handle_circle_circle (spos : V2) (sr : ℚ) (opos : V2) (orad : ℚ)
    (d : ℚ) (dir : Dir) : Option V2 :=
  if d = 0 ∨ d < sr ∨ d < orad then none
  else
    let ux := (opos.1 - spos.1) / d
    let uy := (opos.2 - spos.2) / d
    let p1 : V2 := (spos.1 + sr * ux, spos.2 + sr * uy)
    let p2 : V2 := (opos.1 - orad * ux, opos.2 - orad * uy)
    some (match dir with
      | .down => (spos.1, spos.2 - (p1.2 - p2.2))
      | .up => (spos.1, spos.2 + (p2.2 - p1.2))
      | .right => (spos.1 + (p2.1 - p1.1), spos.2)
      | .left => (spos.1 - (p1.1 - p2.1), spos.2))

/-- Translation of `AbstractSprite._circle_circle_overlap` (Overlap
Resolver, circle/circle).  `p1` is the boundary point of the mover toward
the other body (`line1.intersection(self.polygon)` filtered past the
center; the whole segment when the other center lies inside the mover's
disk, so `p1 = other.position` when `d ≤ r`).  `line2` is the axis ray
through `p1`; its intersection with the other disk is the clipped chord
`[lo, hi]`, a `LineString` only when non-degenerate — a `Point` or an
empty result is skipped, leaving the position unchanged.  `w` is the
half-chord of the other disk on that axis line.  `d = 0` makes the
coords filter of `p1` empty and the source raises IndexError (`none`). -/
def circle_circle_overlap (spos : V2) (sr : ℚ) (opos : V2) (orad : ℚ)
    (d w : ℚ) (dir : Dir) : Option V2 :=
  if d = 0 then none
  else
    let ux := (opos.1 - spos.1) / d
    let uy := (opos.2 - spos.2) / d
    let p1 : V2 := if d ≤ sr then opos else (spos.1 + sr * ux, spos.2 + sr * uy)
    some (match dir with
      | .down =>
          if (p1.1 - opos.1) * (p1.1 - opos.1) > orad * orad then spos
          else
            let lo := max p1.2 (opos.2 - w)
            let hi := min 1 (opos.2 + w)
            if lo ≥ hi then spos
            else
              let p2 : V2 := if ((p1.1, lo) : V2) ≠ p1 then (p1.1, lo) else (p1.1, hi)
              (spos.1, spos.2 + (p2.2 - p1.2))
      | .up =>
          if (p1.1 - opos.1) * (p1.1 - opos.1) > orad * orad then spos
          else
            let lo := max 0 (opos.2 - w)
            let hi := min p1.2 (opos.2 + w)
            if lo ≥ hi then spos
            else
              let p2 : V2 := if ((p1.1, lo) : V2) ≠ p1 then (p1.1, lo) else (p1.1, hi)
              (spos.1, spos.2 - (p1.2 - p2.2))
      | .right =>
          if (p1.2 - opos.2) * (p1.2 - opos.2) > orad * orad then spos
          else
            let lo := max 0 (opos.1 - w)
            let hi := min p1.1 (opos.1 + w)
            if lo ≥ hi then spos
            else
              let p2 : V2 := if ((lo, p1.2) : V2) ≠ p1 then (lo, p1.2) else (hi, p1.2)
              (spos.1 - (p1.1 - p2.1), spos.2)
      | .left =>
          if (p1.2 - opos.2) * (p1.2 - opos.2) > orad * orad then spos
          else
            let lo := max p1.1 (opos.1 - w)
            let hi := min 1 (opos.1 + w)
            if lo ≥ hi then spos
            else
              let p2 : V2 := if ((lo, p1.2) : V2) ≠ p1 then (lo, p1.2) else (hi, p1.2)
              (spos.1 + (p2.1 - p1.1), spos.2))

/-!  ## The pose / cached-path model (`AbstractSprite` setters)

The matplotlib affine transforms are modelled by their exact semantics:
uniform scaling by `k` multiplies every centered-path coordinate by `k`,
and rotations compose additively, so the cached centered path is fully
described by an accumulated scale factor `pathScale` and an accumulated
rotation angle `rotAngle` (degrees) applied to the canonical vertex set.
The canonical vertex table `constants.SHAPES` is repository code outside
the sources; it is modelled from the spec as a unit square (so the scaled
side equals the stored scale), a unit-diameter disk, and an apex-up
triangle. -/

inductive ShapeKind
  | circle
  | square
  | triangle
deriving DecidableEq, Repr

structure GeoSprite where
  pos : V2
  shapeK : ShapeKind
  storedAngle : ℚ
  storedScale : ℚ
  rotAngle : ℚ
  pathScale : ℚ
  prop : Option ℚ
deriving DecidableEq, Repr

/-- Translation of `AbstractSprite._reset_centered_path`: rebuild the
centered path from the canonical shape, applying the stored scale and then
the stored angle. -/
def reset_centered_path (g : GeoSprite) : GeoSprite :=
  { g with pathScale := g.storedScale, rotAngle := g.storedAngle }

/-- Translation of `Sprite._geometrical_properties`: for a circle
`prop = sqrt(area/pi)` is the radius of the scaled unit-diameter disk,
`|pathScale| / 2`; for a square `prop = sqrt(area)` is the side
`|pathScale|`; a triangle is left untouched. -/
def geometrical_properties (g : GeoSprite) : GeoSprite :=
  match g.shapeK with
  | .circle => { g with prop := some (|g.pathScale| / 2) }
  | .square => { g with prop := some |g.pathScale| }
  | .triangle => g

/-- Translation of `Sprite.__init__` (fields, `_reset_centered_path`,
then `_geometrical_properties`). -/
def mkGeoSprite (x y : ℚ) (k : ShapeKind) (angle scale : ℚ) : GeoSprite :=
  geometrical_properties (reset_centered_path
    { pos := (x, y), shapeK := k, storedAngle := angle, storedScale := scale,
      rotAngle := 0, pathScale := 0, prop := none })

/-- Translation of the `shape` setter: store the kind, rebuild the path. -/
def set_shape (k : ShapeKind) (g : GeoSprite) : GeoSprite :=
  reset_centered_path { g with shapeK := k }

/-- Translation of the `angle` setter: rotate the cached path by the
increment `a - storedAngle`, then store the new absolute angle. -/
def set_angle (a : ℚ) (g : GeoSprite) : GeoSprite :=
  { g with rotAngle := g.rotAngle + (a - g.storedAngle), storedAngle := a }

/-- Translation of the `scale` setter: scale the cached path by the
increment `s - storedScale` (`Affine2D().scale(s - self._scale)`), then
store the new absolute scale. -/
def set_scale (s : ℚ) (g : GeoSprite) : GeoSprite :=
  { g with pathScale := g.pathScale * (s - g.storedScale), storedScale := s }

/-- One assignment through a pose setter. -/
inductive GeoOp
  | shapeOp (k : ShapeKind)
  | angleOp (a : ℚ)
  | scaleOp (s : ℚ)
deriving DecidableEq, Repr

def apply_op (op : GeoOp) (g : GeoSprite) : GeoSprite :=
  match op with
  | .shapeOp k => set_shape k g
  | .angleOp a => set_angle a g
  | .scaleOp s => set_scale s g

def apply_ops (ops : List GeoOp) (g : GeoSprite) : GeoSprite :=
  ops.foldl (fun g op => apply_op op g) g

/-- The canonical square's vertices (modelled from the spec, side 1). -/
def canonical_square : List V2 :=
  [(-(1/2), -(1/2)), (1/2, -(1/2)), (1/2, 1/2), (-(1/2), 1/2)]

/-- The cached centered path of a square body before its rotation by
`rotAngle`: the canonical square scaled by the accumulated factor. -/
def square_path_verts (g : GeoSprite) : List V2 :=
  canonical_square.map fun v => (g.pathScale * v.1, g.pathScale * v.2)

/-- The centered path the spec's invariant predicts (from the spec's
words): the canonical square scaled by the stored absolute scale, before
its rotation by `storedAngle`. -/
def square_path_verts_spec (g : GeoSprite) : List V2 :=
  canonical_square.map fun v => (g.storedScale * v.1, g.storedScale * v.2)

/-- The characteristic size the spec's invariant predicts (from the spec's
words): the value `_geometrical_properties` would derive from the current
polygon area at the current scale. -/
def prop_from_area (g : GeoSprite) : Option ℚ :=
  match g.shapeK with
  | .circle => some (|g.pathScale| / 2)
  | .square => some |g.pathScale|
  | .triangle => g.prop

/-!  ## Theorems

Helper lemmas first (`pos_mem_bounds`, `snap_dir_mem`, `move_two_sq`),
then one theorem per claim, with counterexamples and witnesses. -/

/-- The body's position lies inside its own bounding box. -/
theorem pos_mem_bounds (s : Sprite) (hwf : WellFormed s) :
    s.bounds.x0 ≤ s.pos.1 ∧ s.pos.1 ≤ s.bounds.x1 ∧
    s.bounds.y0 ≤ s.pos.2 ∧ s.pos.2 ≤ s.bounds.y1 := by
  obtain ⟨p, sh⟩ := s
  cases sh <;> simp only [Sprite.bounds, WellFormed] at hwf ⊢
  case circle r => refine ⟨by linarith, by linarith, by linarith, by linarith⟩
  case square h => refine ⟨by linarith, by linarith, by linarith, by linarith⟩
  case triangle v0 v1 v2 =>
    obtain ⟨w1, w2, w3, w4⟩ := hwf
    refine ⟨by linarith, by linarith, by linarith, by linarith⟩

/-- After the square/square snap in direction `d`, the mover sits on the far
side of the other square, so `d` is always among the opposites of the
mover's relative positions — `Sprite.move` therefore always takes its
recursive-push branch for square pairs. -/
theorem snap_dir_mem (s o : Sq) (d : Dir) (hs : 0 ≤ s.h) :
    d ∈ (square_square_position (handle_square_square s o d) o).map opposite := by
  cases d
  case right =>
    have hcond : (handle_square_square s o Dir.right).x ≤ o.x0 := by
      simp [handle_square_square, Sq.x0, Sq.x1]; linarith
    unfold square_square_position
    rw [if_pos hcond]
    refine List.mem_map.mpr ⟨Dir.left, ?_, rfl⟩
    refine List.mem_append.mpr (Or.inl ?_)
    refine List.mem_append.mpr (Or.inl ?_)
    exact List.mem_append.mpr (Or.inl (by simp))
  case left =>
    have hcond : (handle_square_square s o Dir.left).x ≥ o.x1 := by
      simp [handle_square_square, Sq.x0, Sq.x1]; linarith
    unfold square_square_position
    rw [if_pos hcond]
    refine List.mem_map.mpr ⟨Dir.right, ?_, rfl⟩
    refine List.mem_append.mpr (Or.inl ?_)
    refine List.mem_append.mpr (Or.inl ?_)
    exact List.mem_append.mpr (Or.inr (by simp))
  case up =>
    have hcond : (handle_square_square s o Dir.up).y ≤ o.y0 := by
      simp [handle_square_square, Sq.y0, Sq.y1]; linarith
    unfold square_square_position
    rw [if_pos hcond]
    refine List.mem_map.mpr ⟨Dir.down, ?_, rfl⟩
    refine List.mem_append.mpr (Or.inl ?_)
    exact List.mem_append.mpr (Or.inr (by simp))
  case down =>
    have hcond : (handle_square_square s o Dir.down).y ≥ o.y1 := by
      simp [handle_square_square, Sq.y0, Sq.y1]; linarith
    unfold square_square_position
    rw [if_pos hcond]
    refine List.mem_map.mpr ⟨Dir.up, ?_, rfl⟩
    exact List.mem_append.mpr (Or.inr (by simp))

/-- Two-square run of `Sprite.move`: with a single square candidate that the
detection step reports, `move` snaps the mover to the candidate, translates
the mover by the motion again, pushes the candidate by the motion, and runs
the final overlap resolution between them. -/
theorem move_two_sq (s o : Sq) (m : V2) (d : Dir)
    (hs : 0 ≤ s.h)
    (hd : get_motion_direction m = some d)
    (hdet : detect_collision_sq s o m = true) :
    move_sq 2 [s, o] 0 m false (some [1]) =
      some [avoid_overlapping_sq ((handle_square_square s o d).translate m)
              (o.translate m) d,
            o.translate m] := by
  have hmem := snap_dir_mem s o d hs
  have h11 : (decide ((1 : Nat) ≠ 1)) = false := by decide
  simp only [move_sq, hd, getSq, setW, List.getD, List.get?_cons_zero,
    List.get?_cons_succ, List.get?_nil, Option.getD_some, Option.getD_none,
    List.filter_cons, List.filter_nil, hdet, if_true, argmin_first, List.map,
    List.foldl, List.eraseIdx, List.set, Option.bind, hmem, ite_true, h11,
    if_false, Bool.false_eq_true]

/-- C1 counterexample: mover square at (0.30, 0.50), carried square C at
(0.52, 0.50), both of half side 0.10, motion (0.10, 0): the mover moves
toward C ("right" is not the opposite of C's relative position "right").
The Collision Snapper's position is x = 0.32, but `move` commits
x = 0.42 - 1e-5: after snapping it translates the mover by the motion,
pushes C, and runs the overlap resolver — refuting "no further translation
by `motion` is applied in that branch". -/
theorem C1_counterexample :
    move_sq 2 [⟨3/10, 1/2, 1/10⟩, ⟨13/25, 1/2, 1/10⟩] 0 (1/10, 0) false (some [1]) =
      some [⟨41999/100000, 1/2, 1/10⟩, ⟨31/50, 1/2, 1/10⟩] ∧
    (41999/100000 : ℚ) ≠
      (handle_square_square ⟨3/10, 1/2, 1/10⟩ ⟨13/25, 1/2, 1/10⟩ Dir.right).x := by
  constructor
  · rw [move_two_sq ⟨3/10, 1/2, 1/10⟩ ⟨13/25, 1/2, 1/10⟩ (1/10, 0) Dir.right
      (by norm_num) (by norm_num [get_motion_direction])
      (by norm_num [detect_collision_sq, check_collision_sq, Sq.translate,
        Sq.x0, Sq.x1, Sq.y0, Sq.y1])]
    norm_num [avoid_overlapping_sq, check_collision_sq, handle_square_square,
      square_square_overlap, Sq.translate, Sq.x0, Sq.x1, Sq.y0, Sq.y1, eps]
  · norm_num [handle_square_square, Sq.x0, Sq.x1]

/-- C1 amended: when a square mover has a square carried candidate C
(`detect_collision` true) and `others = [C]`, `move` does not commit the
snapped position alone: it commits the Collision Snapper's position further
translated by `motion`, moves C by `motion`, and applies the final overlap
resolution between the two. -/
theorem C1_amended (s o : Sq) (m : V2) (d : Dir)
    (hs : 0 ≤ s.h)
    (hd : get_motion_direction m = some d)
    (hdet : detect_collision_sq s o m = true) :
    move_sq 2 [s, o] 0 m false (some [1]) =
      some [avoid_overlapping_sq ((handle_square_square s o d).translate m)
              (o.translate m) d,
            o.translate m] :=
  move_two_sq s o m d hs hd hdet

/-- C1 amended witness: the concrete toward-C configuration. -/
theorem C1_amended_witness :
    move_sq 2 [⟨3/10, 1/2, 1/10⟩, ⟨1/2, 1/2, 1/10⟩] 0 (1/10, 0) false (some [1]) =
      some [avoid_overlapping_sq
              ((handle_square_square ⟨3/10, 1/2, 1/10⟩ ⟨1/2, 1/2, 1/10⟩ Dir.right).translate
                (1/10, 0))
              (Sq.translate ⟨1/2, 1/2, 1/10⟩ (1/10, 0)) Dir.right,
            Sq.translate ⟨1/2, 1/2, 1/10⟩ (1/10, 0)] :=
  C1_amended ⟨3/10, 1/2, 1/10⟩ ⟨1/2, 1/2, 1/10⟩ (1/10, 0) Dir.right
    (by norm_num) (by norm_num [get_motion_direction])
    (by norm_num [detect_collision_sq, check_collision_sq, Sq.translate,
      Sq.x0, Sq.x1, Sq.y0, Sq.y1])

/-- C2 counterexample: a square constructed at scale 0.1 whose scale is
then set to 0.2.  The rotation accumulators agree (both angles are 0, and
rotation by equal angles is injective on vertex lists, so the paths may be
compared before rotation), yet the cached path is the canonical square
scaled by 0.1 * (0.2 - 0.1) = 0.001 — not by the stored scale 0.2: the
vertices are stale with respect to the stored pose. -/
theorem C2_counterexample :
    (set_scale (1/5) (mkGeoSprite 0 0 .square 0 (1/10))).rotAngle =
      (set_scale (1/5) (mkGeoSprite 0 0 .square 0 (1/10))).storedAngle ∧
    square_path_verts (set_scale (1/5) (mkGeoSprite 0 0 .square 0 (1/10))) ≠
      square_path_verts_spec (set_scale (1/5) (mkGeoSprite 0 0 .square 0 (1/10))) := by
  constructor
  · norm_num [set_scale, mkGeoSprite, reset_centered_path, geometrical_properties]
  · norm_num [square_path_verts, square_path_verts_spec, set_scale, mkGeoSprite,
      reset_centered_path, geometrical_properties, canonical_square, Prod.ext_iff]

/-- C2 amended: the `angle` setter preserves consistency (the accumulated
rotation again equals the stored absolute angle, and the scale factor is
untouched), but the `scale` setter multiplies the cached path by the
difference `s - storedScale` instead of rescaling it to `s`: the new path
scale factor is `pathScale * (s - storedScale)`, which matches the stored
scale only in coincidental cases. -/
theorem C2_amended :
    (∀ (g : GeoSprite) (a : ℚ), g.rotAngle = g.storedAngle →
       ((set_angle a g).rotAngle = (set_angle a g).storedAngle ∧
        (set_angle a g).pathScale = g.pathScale)) ∧
    (∀ (g : GeoSprite) (s : ℚ),
       (set_scale s g).pathScale = g.pathScale * (s - g.storedScale) ∧
       (set_scale s g).storedScale = s) := by
  constructor
  · intro g a h
    refine ⟨?_, rfl⟩
    simp only [set_angle, h]
    ring
  · intro g s
    exact ⟨rfl, rfl⟩

/-- C2 amended witness: both parts at a concrete square sprite. -/
theorem C2_amended_witness :
    ((set_angle 90 (mkGeoSprite 0 0 .square 0 (1/10))).rotAngle =
       (set_angle 90 (mkGeoSprite 0 0 .square 0 (1/10))).storedAngle ∧
     (set_angle 90 (mkGeoSprite 0 0 .square 0 (1/10))).pathScale =
       (mkGeoSprite 0 0 .square 0 (1/10)).pathScale) ∧
    ((set_scale (1/5) (mkGeoSprite 0 0 .square 0 (1/10))).pathScale =
       (mkGeoSprite 0 0 .square 0 (1/10)).pathScale *
         (1/5 - (mkGeoSprite 0 0 .square 0 (1/10)).storedScale) ∧
     (set_scale (1/5) (mkGeoSprite 0 0 .square 0 (1/10))).storedScale = 1/5) :=
  ⟨C2_amended.1 (mkGeoSprite 0 0 .square 0 (1/10)) 90
      (by norm_num [mkGeoSprite, reset_centered_path, geometrical_properties]),
   C2_amended.2 (mkGeoSprite 0 0 .square 0 (1/10)) (1/5)⟩

/-- C3 counterexample: two triangles moving down.  After the speculative
translation the mover's triangle is disjoint from the other triangle
(`TriTri2D`, the spec's pair predicate, is false), yet `detect_collision`
returns true because the source's `condition2` vertex-band test accepts. -/
theorem C3_counterexample :
    detect_collision ⟨(0, 0), .triangle (0, 2) (-2, -2) (2, -2)⟩
        ⟨(0, 0), .triangle (5/2, -3/2) (19/10, -5/2) (3, -5/2)⟩ (0, -1) Dir.down = true ∧
    overlap_pred_at ⟨(0, 0), .triangle (0, 2) (-2, -2) (2, -2)⟩
        ⟨(0, 0), .triangle (5/2, -3/2) (19/10, -5/2) (3, -5/2)⟩ (0, -1) = false := by
  constructor
  · norm_num [detect_collision, detect_collision_run, tri_tri_extra, TriTri2D,
      checkTriWinding, chkEdge, det3, Sprite.translate, Prod.ext_iff]
  · norm_num [overlap_pred_at, TriTri2D, checkTriWinding, chkEdge, det3,
      Sprite.translate, Prod.ext_iff]

/-- C3 amended: `detect_collision` agrees with the spec's pair-appropriate
overlap predicate at the translated position for all shape pairs except
triangle/triangle, where it additionally accepts on the direction-specific
vertex-band condition `condition2`. -/
theorem C3_amended (s o : Sprite) (m : V2) (d : Dir) :
    detect_collision s o m d = (overlap_pred_at s o m || tri_tri_extra s o m d) := by
  obtain ⟨p, sh⟩ := s
  obtain ⟨q, oh⟩ := o
  cases sh <;> cases oh <;>
    simp [detect_collision, detect_collision_run, overlap_pred_at, tri_tri_extra,
      Sprite.translate]

/-- C4: `detect_collision` leaves both bodies' positions exactly as they
were, on every path: the circle branches never mutate, and every mutating
branch reverts the speculative translation, which over exact arithmetic
restores the original position; the predicates of the embedded paths are
total, so no abnormal exit skips the revert. -/
theorem C4_detect_restores_positions (s o : Sprite) (m : V2) (d : Dir) :
    (detect_collision_run s o m d).2 = (s, o) := by
  obtain ⟨p, sh⟩ := s
  obtain ⟨q, oh⟩ := o
  cases sh <;> cases oh <;>
    simp [detect_collision_run, Sprite.translate, add_sub_cancel_right]

/-- C5 counterexample: a square constructed at scale 0.1 has `prop = 0.1`;
setting its scale to 0.3 leaves `prop = 0.1`, while the value consistent
with the current polygon area (the path is now scaled by
0.1 * (0.3 - 0.1) = 0.02) is 0.02 — the setter never recomputes it. -/
theorem C5_counterexample :
    (set_scale (3/10) (mkGeoSprite 0 0 .square 0 (1/10))).prop = some (1/10) ∧
    prop_from_area (set_scale (3/10) (mkGeoSprite 0 0 .square 0 (1/10))) = some (1/50) ∧
    (set_scale (3/10) (mkGeoSprite 0 0 .square 0 (1/10))).prop ≠
      prop_from_area (set_scale (3/10) (mkGeoSprite 0 0 .square 0 (1/10))) := by
  refine ⟨?_, ?_, ?_⟩ <;>
    norm_num [set_scale, mkGeoSprite, reset_centered_path, geometrical_properties,
      prop_from_area, abs_of_nonneg]

/-- C5 amended: `prop` is computed only at construction
(`Sprite.__init__` calls `_geometrical_properties`); no sequence of
assignments through the `shape`, `angle`, or `scale` setters ever changes
it. -/
theorem C5_amended (g : GeoSprite) (ops : List GeoOp) :
    (apply_ops ops g).prop = g.prop := by
  induction ops generalizing g with
  | nil => rfl
  | cons op rest ih =>
      have h1 : apply_ops (op :: rest) g = apply_ops rest (apply_op op g) := rfl
      rw [h1, ih]
      cases op <;> rfl

/-- C6 counterexample: overlapping circles of radius 0.05 at (0.40, 0.50)
and (0.48, 0.50), direction "right".  The first two conjuncts certify the
supplied center distance `d = 0.08` and half-chord `w = 0.05`.  One
application of the circle/circle Overlap Resolver moves the first circle to
(0.38, 0.50) — exact tangency, no epsilon — where `check_collision` is
still true, refuting "one application yields check_collision false". -/
theorem C6_counterexample :
    ((2 : ℚ)/25) * (2/25) = dist2 ((2 : ℚ)/5, 1/2) ((12 : ℚ)/25, 1/2) ∧
    ((1 : ℚ)/20) * (1/20) =
      (1/20 : ℚ) * (1/20) - ((1 : ℚ)/2 - 1/2) * ((1 : ℚ)/2 - 1/2) ∧
    check_collision ⟨((2 : ℚ)/5, 1/2), .circle (1/20)⟩
      ⟨((12 : ℚ)/25, 1/2), .circle (1/20)⟩ = true ∧
    circle_circle_overlap ((2 : ℚ)/5, 1/2) (1/20) ((12 : ℚ)/25, 1/2) (1/20)
      (2/25) (1/20) Dir.right = some (19/50, 1/2) ∧
    check_collision ⟨((19 : ℚ)/50, 1/2), .circle (1/20)⟩
      ⟨((12 : ℚ)/25, 1/2), .circle (1/20)⟩ = true := by
  refine ⟨by norm_num [dist2], by norm_num, ?_, ?_, ?_⟩
  · norm_num [check_collision, sqrtLe, dist2]
  · norm_num [circle_circle_overlap, Prod.ext_iff]
  · norm_num [check_collision, sqrtLe, dist2]

/-- C6 amended: for square/square pairs the claim does hold: if the two
squares overlap (`check_collision` true), one application of the Overlap
Resolver makes `check_collision` false and a second application with the
same arguments returns the first body unchanged (exactly, over ℚ). -/
theorem C6_amended (s o : Sq) (d : Dir) (h : check_collision_sq s o = true) :
    check_collision_sq (square_square_overlap s o d) o = false ∧
    square_square_overlap (square_square_overlap s o d) o d = square_square_overlap s o d := by
  simp only [check_collision_sq, Sq.x0, Sq.x1, Sq.y0, Sq.y1, decide_eq_true_eq] at h
  obtain ⟨h1, h2, h3, h4⟩ := h
  cases d <;>
    constructor <;>
    simp only [square_square_overlap, check_collision_sq, ge_iff_le,
      Sq.x0, Sq.x1, Sq.y0, Sq.y1, eps, decide_eq_false_iff_not] <;>
    split_ifs <;>
    first
      | rfl
      | (intro hcon; obtain ⟨g1, g2, g3, g4⟩ := hcon; linarith)
      | (exfalso; linarith)

/-- C6 amended witness: the concrete overlapping pair of Scenario A. -/
theorem C6_amended_witness :
    check_collision_sq
        (square_square_overlap ⟨1/2, 1/2, 1/20⟩ ⟨11/20, 1/2, 1/20⟩ Dir.right)
        ⟨11/20, 1/2, 1/20⟩ = false ∧
    square_square_overlap
        (square_square_overlap ⟨1/2, 1/2, 1/20⟩ ⟨11/20, 1/2, 1/20⟩ Dir.right)
        ⟨11/20, 1/2, 1/20⟩ Dir.right =
      square_square_overlap ⟨1/2, 1/2, 1/20⟩ ⟨11/20, 1/2, 1/20⟩ Dir.right :=
  C6_amended ⟨1/2, 1/2, 1/20⟩ ⟨11/20, 1/2, 1/20⟩ Dir.right
    (by norm_num [check_collision_sq, Sq.x0, Sq.x1, Sq.y0, Sq.y1])

/-!  ## Claim theorems on the square fragment -/

/-- C7: two squares of side 0.1 (half side 1/20) at (0.50, 0.50) and
(0.55, 0.50), Overlap Resolver in direction "right": the mover's right edge
ends exactly `1e-5` to the left of the other square's left edge, and the
y-coordinate is unchanged. -/
theorem C7_resolver_scenarioA :
    (square_square_overlap ⟨1/2, 1/2, 1/20⟩ ⟨11/20, 1/2, 1/20⟩ Dir.right).x1 =
      (Sq.x0 ⟨11/20, 1/2, 1/20⟩) - eps ∧
    (square_square_overlap ⟨1/2, 1/2, 1/20⟩ ⟨11/20, 1/2, 1/20⟩ Dir.right).y = 1/2 := by
  norm_num [square_square_overlap, eps, Sq.x0, Sq.x1, Sq.y0, Sq.y1]

/-- C8: Scenario B of the spec (two fully coincident circles of radius
0.05 at (0.3, 0.3), direction "up") crashes the code instead of snapping
the mover to tangency at (0.3, 0.4): the first conjunct certifies that the
center distance is 0, so the center segment is degenerate, its
intersections with the circle contours are empty, and the uncaught
`p1.y` access raises. -/
theorem C8_handle_coincident_circles_fails :
    dist2 ((3 : ℚ)/10, (3 : ℚ)/10) ((3 : ℚ)/10, (3 : ℚ)/10) = 0 * 0 ∧
    handle_circle_circle ((3 : ℚ)/10, 3/10) (1/20) ((3 : ℚ)/10, 3/10) (1/20)
      0 Dir.up = none := by
  constructor
  · norm_num [dist2]
  · norm_num [handle_circle_circle]

/-- C9: if the body's full extent already lies within the unit frame, the
frame clamp leaves it unchanged; and whenever the clamp interval derived
from the body's own bounds is nonempty, the clamped position lies within
`[bottom-left offset, 1 - top-right offset]`, so the rendered extent stays
in frame. -/
theorem C9_frame_clamp (s : Sprite) (hwf : WellFormed s) :
    ((0 ≤ s.bounds.x0 ∧ 0 ≤ s.bounds.y0 ∧ s.bounds.x1 ≤ 1 ∧ s.bounds.y1 ≤ 1) →
       clamp_frame s = s) ∧
    (((offsets s).1.1 ≤ 1 - (offsets s).2.1 ∧ (offsets s).1.2 ≤ 1 - (offsets s).2.2) →
       ((offsets s).1.1 ≤ (clamp_frame s).pos.1 ∧
        (clamp_frame s).pos.1 ≤ 1 - (offsets s).2.1 ∧
        (offsets s).1.2 ≤ (clamp_frame s).pos.2 ∧
        (clamp_frame s).pos.2 ≤ 1 - (offsets s).2.2)) := by
  obtain ⟨hb1, hb2, hb3, hb4⟩ := pos_mem_bounds s hwf
  have ho1 : (offsets s).1.1 = s.pos.1 - s.bounds.x0 := by
    simp only [offsets]
    rw [abs_of_nonpos (by linarith)]
    ring
  have ho2 : (offsets s).1.2 = s.pos.2 - s.bounds.y0 := by
    simp only [offsets]
    rw [abs_of_nonpos (by linarith)]
    ring
  have ho3 : (offsets s).2.1 = s.bounds.x1 - s.pos.1 := by
    simp only [offsets]
    rw [abs_of_nonneg (by linarith)]
  have ho4 : (offsets s).2.2 = s.bounds.y1 - s.pos.2 := by
    simp only [offsets]
    rw [abs_of_nonneg (by linarith)]
  constructor
  · rintro ⟨hf1, hf2, hf3, hf4⟩
    have hp : (min (max s.pos.1 (offsets s).1.1) (1 - (offsets s).2.1),
               min (max s.pos.2 (offsets s).1.2) (1 - (offsets s).2.2)) = s.pos := by
      rw [ho1, ho2, ho3, ho4]
      have e1 : max s.pos.1 (s.pos.1 - s.bounds.x0) = s.pos.1 := max_eq_left (by linarith)
      have e2 : max s.pos.2 (s.pos.2 - s.bounds.y0) = s.pos.2 := max_eq_left (by linarith)
      rw [e1, e2, min_eq_left (by linarith), min_eq_left (by linarith)]
    rw [clamp_frame, hp]
  · rintro ⟨hg1, hg2⟩
    refine ⟨le_min (le_max_right _ _) hg1, min_le_right _ _,
            le_min (le_max_right _ _) hg2, min_le_right _ _⟩

/-- C9 witness: a square of side 0.2 centered in the frame. -/
theorem C9_frame_clamp_witness :
    (((0 : ℚ) ≤ (Sprite.mk (1/2, 1/2) (ShapeData.square (1/10))).bounds.x0 ∧
      (0 : ℚ) ≤ (Sprite.mk (1/2, 1/2) (ShapeData.square (1/10))).bounds.y0 ∧
      (Sprite.mk (1/2, 1/2) (ShapeData.square (1/10))).bounds.x1 ≤ 1 ∧
      (Sprite.mk (1/2, 1/2) (ShapeData.square (1/10))).bounds.y1 ≤ 1) →
       clamp_frame (Sprite.mk (1/2, 1/2) (ShapeData.square (1/10))) =
         Sprite.mk (1/2, 1/2) (ShapeData.square (1/10))) ∧
    (clamp_frame (Sprite.mk (1/2, 1/2) (ShapeData.square (1/10))) =
       Sprite.mk (1/2, 1/2) (ShapeData.square (1/10))) := by
  have h := C9_frame_clamp (Sprite.mk (1/2, 1/2) (ShapeData.square (1/10)))
    (by norm_num [WellFormed])
  refine ⟨h.1, h.1 ?_⟩
  norm_num [Sprite.bounds]

/-- C10 counterexample: for two squares far apart horizontally, the
square/square Collision Snapper in direction "down" aligns the facing edge
coordinates but `check_collision` is false afterwards, refuting the claim
that it always returns true. -/
theorem C10_counterexample :
    facing_gap (handle_square_square ⟨0, 0, 1/10⟩ ⟨10, 0, 1/10⟩ Dir.down)
        ⟨10, 0, 1/10⟩ Dir.down = 0 ∧
    check_collision_sq (handle_square_square ⟨0, 0, 1/10⟩ ⟨10, 0, 1/10⟩ Dir.down)
        ⟨10, 0, 1/10⟩ = false := by
  norm_num [facing_gap, handle_square_square, check_collision_sq, Sq.x0, Sq.x1, Sq.y0, Sq.y1]

/-- C10 amended: for two square bodies whose extents overlap along the axis
orthogonal to the direction, the square/square Collision Snapper makes the
facing bounding-box edges coincide exactly (no epsilon), leaves the
orthogonal coordinate unchanged, and afterwards `check_collision` is true
(touching boundaries intersect). -/
theorem C10_amended (s o : Sq) (d : Dir) (hs : 0 ≤ s.h) (ho : 0 ≤ o.h)
    (horth : orth_overlap s o d) :
    facing_gap (handle_square_square s o d) o d = 0 ∧
    orth_coord (handle_square_square s o d) d = orth_coord s d ∧
    check_collision_sq (handle_square_square s o d) o = true := by
  cases d <;>
    obtain ⟨h1, h2⟩ := horth <;>
    simp only [Sq.x0, Sq.x1, Sq.y0, Sq.y1] at h1 h2 <;>
    refine ⟨?_, ?_, ?_⟩ <;>
    simp only [facing_gap, orth_coord, handle_square_square, check_collision_sq,
      Sq.x0, Sq.x1, Sq.y0, Sq.y1, decide_eq_true_eq]
  · ring
  · refine ⟨by linarith, by linarith, by linarith, by linarith⟩
  · ring
  · refine ⟨by linarith, by linarith, by linarith, by linarith⟩
  · ring
  · refine ⟨by linarith, by linarith, by linarith, by linarith⟩
  · ring
  · refine ⟨by linarith, by linarith, by linarith, by linarith⟩

/-- C10 amended witness: a concrete vertically stacked pair. -/
theorem C10_amended_witness :
    facing_gap (handle_square_square ⟨1/2, 1/2, 1/10⟩ ⟨1/2, 3/4, 1/10⟩ Dir.up)
        ⟨1/2, 3/4, 1/10⟩ Dir.up = 0 ∧
    orth_coord (handle_square_square ⟨1/2, 1/2, 1/10⟩ ⟨1/2, 3/4, 1/10⟩ Dir.up) Dir.up =
      orth_coord ⟨1/2, 1/2, 1/10⟩ Dir.up ∧
    check_collision_sq (handle_square_square ⟨1/2, 1/2, 1/10⟩ ⟨1/2, 3/4, 1/10⟩ Dir.up)
        ⟨1/2, 3/4, 1/10⟩ = true :=
  C10_amended ⟨1/2, 1/2, 1/10⟩ ⟨1/2, 3/4, 1/10⟩ Dir.up (by norm_num) (by norm_num)
    (by constructor <;> norm_num [Sq.x0, Sq.x1])
